import Mathlib

/-!
Verification of the entropy-balance calculator and the pipeline glue of the
`gkvfigpdf` repository, shallowly embedded over `ℚ` (exact arithmetic in place
of IEEE floats).  The float sentinel `NaN` that marks boundary rows is
modelled by `Option ℚ`, with `none` standing for the sentinel.
-/

set_option linter.unusedVariables false

namespace GkvFigPdf

/-! ## Derivative estimators (src/gkvfigpdf/utils/calc_entropy_balance.py)

The five Lagrange weights of `non_uniform_derivative` are the locals
`num_cefm2 / den_cefm2`, …, `num_cefp2 / den_cefp2` of the source; they are
lifted to top-level definitions over the five stencil abscissas. -/

def num_cefm2 (t_m2 t_m1 t_0 t_p1 t_p2 : ℚ) : ℚ := (t_0 - t_m1) * (t_0 - t_p1) * (t_0 - t_p2)

def den_cefm2 (t_m2 t_m1 t_0 t_p1 t_p2 : ℚ) : ℚ :=
  (t_m2 - t_m1) * (t_m2 - t_0) * (t_m2 - t_p1) * (t_m2 - t_p2)

def num_cefm1 (t_m2 t_m1 t_0 t_p1 t_p2 : ℚ) : ℚ := (t_0 - t_m2) * (t_0 - t_p1) * (t_0 - t_p2)

def den_cefm1 (t_m2 t_m1 t_0 t_p1 t_p2 : ℚ) : ℚ :=
  (t_m1 - t_m2) * (t_m1 - t_0) * (t_m1 - t_p1) * (t_m1 - t_p2)

def num_cefp0 (t_m2 t_m1 t_0 t_p1 t_p2 : ℚ) : ℚ :=
  let term1 := (t_0 - t_m1) * (t_0 - t_p1) * (t_0 - t_p2)
  let term2 := (t_0 - t_m2) * (t_0 - t_p1) * (t_0 - t_p2)
  let term3 := (t_0 - t_m2) * (t_0 - t_m1) * (t_0 - t_p2)
  let term4 := (t_0 - t_m2) * (t_0 - t_m1) * (t_0 - t_p1)
  term1 + term2 + term3 + term4

def den_cefp0 (t_m2 t_m1 t_0 t_p1 t_p2 : ℚ) : ℚ :=
  (t_0 - t_m2) * (t_0 - t_m1) * (t_0 - t_p1) * (t_0 - t_p2)

def num_cefp1 (t_m2 t_m1 t_0 t_p1 t_p2 : ℚ) : ℚ := (t_0 - t_m2) * (t_0 - t_m1) * (t_0 - t_p2)

def den_cefp1 (t_m2 t_m1 t_0 t_p1 t_p2 : ℚ) : ℚ :=
  (t_p1 - t_m2) * (t_p1 - t_m1) * (t_p1 - t_0) * (t_p1 - t_p2)

def num_cefp2 (t_m2 t_m1 t_0 t_p1 t_p2 : ℚ) : ℚ := (t_0 - t_m2) * (t_0 - t_m1) * (t_0 - t_p1)

def den_cefp2 (t_m2 t_m1 t_0 t_p1 t_p2 : ℚ) : ℚ :=
  (t_p2 - t_m2) * (t_p2 - t_m1) * (t_p2 - t_0) * (t_p2 - t_p1)

/-- The weighted sum computed by the loop body of `non_uniform_derivative`,
on plain values `t_m2 .. t_p2`, `ym2 .. yp2`. -/
def nonUniformWeighted (t_m2 t_m1 t_0 t_p1 t_p2 ym2 ym1 y0 yp1 yp2 : ℚ) : ℚ :=
  let cefm2 := num_cefm2 t_m2 t_m1 t_0 t_p1 t_p2 / den_cefm2 t_m2 t_m1 t_0 t_p1 t_p2
  let cefm1 := num_cefm1 t_m2 t_m1 t_0 t_p1 t_p2 / den_cefm1 t_m2 t_m1 t_0 t_p1 t_p2
  let cefp0 := num_cefp0 t_m2 t_m1 t_0 t_p1 t_p2 / den_cefp0 t_m2 t_m1 t_0 t_p1 t_p2
  let cefp1 := num_cefp1 t_m2 t_m1 t_0 t_p1 t_p2 / den_cefp1 t_m2 t_m1 t_0 t_p1 t_p2
  let cefp2 := num_cefp2 t_m2 t_m1 t_0 t_p1 t_p2 / den_cefp2 t_m2 t_m1 t_0 t_p1 t_p2
  cefm2 * ym2 + cefm1 * ym1 + cefp0 * y0 + cefp1 * yp1 + cefp2 * yp2

/-- The loop body of `non_uniform_derivative` at row `ir`, reading the window
`t[ir-2..ir+2]`, `y[ir-2..ir+2]`. -/
def nonUniformStencil (t y : List ℚ) (ir : ℕ) : ℚ :=
  nonUniformWeighted
    (t.getD (ir-2) 0) (t.getD (ir-1) 0) (t.getD ir 0) (t.getD (ir+1) 0) (t.getD (ir+2) 0)
    (y.getD (ir-2) 0) (y.getD (ir-1) 0) (y.getD ir 0) (y.getD (ir+1) 0) (y.getD (ir+2) 0)

/-- `non_uniform_derivative(t, y)`: an array of length `n = len(t)`, `NaN`
(here `none`) everywhere except indices `ir ∈ range(2, n-2)` where the
non-uniform 5-point Lagrange stencil is used. -/
def non_uniform_derivative (t y : List ℚ) : List (Option ℚ) :=
  (List.range t.length).map fun i =>
    if 2 ≤ i ∧ i < t.length - 2 then some (nonUniformStencil t y i) else none

/-- The body of the loop of `uniform_derivative`:
`dt = t[i+1]-t[i]; cef = 1/(12*dt); dydt[i] = cef*(-y[i+2]+8*y[i+1]-8*y[i-1]+y[i-2])`. -/
def uniformStencil (t y : List ℚ) (i : ℕ) : ℚ :=
  let dt := t.getD (i+1) 0 - t.getD i 0
  let cef := 1 / (12 * dt)
  cef * (-(y.getD (i+2) 0) + 8 * y.getD (i+1) 0 - 8 * y.getD (i-1) 0 + y.getD (i-2) 0)

/-- `uniform_derivative(t, y)`: an array of length `n = len(t)`, `NaN` (`none`)
everywhere except indices `i ∈ range(2, n-2)` where the 5-point uniform
stencil with the single local gap is used. -/
def uniform_derivative (t y : List ℚ) : List (Option ℚ) :=
  (List.range t.length).map fun i =>
    if 2 ≤ i ∧ i < t.length - 2 then some (uniformStencil t y i) else none

/-- A time column is strictly increasing (bounded form, decidable). -/
def StrictIncr (t : List ℚ) : Prop :=
  ∀ j, j < t.length → ∀ i, i < j → t.getD i 0 < t.getD j 0

instance (t : List ℚ) : Decidable (StrictIncr t) := by
  unfold StrictIncr; infer_instance

/-! ## Spec-side formula for claim C1: differentiated Lagrange basis weights.

Transcribed from the specification text (spec.md §4.1): for node `k`,
`c_k = Σ_{j≠k} Π_{m≠k,j}(t_0 - t_m) / Π_{m≠k}(t_k - t_m)` evaluated at
`t_0 = ts 2` (the centre of the 5-point window), and
`dy/dt = Σ_k c_k · y_k`.  Nodes `{-2,…,2}` are shifted to `{0,…,4}`. -/

def specNodes : List ℕ := [0, 1, 2, 3, 4]

def specLagrangeWeight (ts : ℕ → ℚ) (k : ℕ) : ℚ :=
  (((specNodes.filter (fun j => j ≠ k)).map
      (fun j => ((specNodes.filter (fun m => m ≠ k ∧ m ≠ j)).map (fun m => ts 2 - ts m)).prod)).sum) /
  (((specNodes.filter (fun m => m ≠ k)).map (fun m => ts k - ts m)).prod)

def specDerivative (ts ys : ℕ → ℚ) : ℚ :=
  (specNodes.map (fun k => specLagrangeWeight ts k * ys k)).sum

/-- The 5-point window of a column at interior row `i`, as a function on the
shifted node indices `{0,…,4}` (node `2` is row `i`). -/
def window (xs : List ℚ) (i : ℕ) : ℕ → ℚ := fun k => xs.getD (i - 2 + k) 0

/-! ## The HistoryTable data model (21-column bln table) -/

/-- The 21-column input table; field names are the column names assigned by
`_calc_entropy_balance` (`df.columns = [...]`). -/
structure HistoryTable where
  t : List ℚ
  Ss_nz : List ℚ
  Ss_zf : List ℚ
  WE_nz : List ℚ
  WE_zf : List ℚ
  WM_nz : List ℚ
  WM_zf : List ℚ
  RE_nz : List ℚ
  RE_zf : List ℚ
  RM_nz : List ℚ
  RM_zf : List ℚ
  NE_nz : List ℚ
  NE_zf : List ℚ
  NM_nz : List ℚ
  NM_zf : List ℚ
  Ds_nz : List ℚ
  Ds_zf : List ℚ
  GE : List ℚ
  GM : List ℚ
  QE : List ℚ
  QM : List ℚ

/-- The 21 columns, in the positional order of the source. -/
def HistoryTable.cols (df : HistoryTable) : List (List ℚ) :=
  [df.t, df.Ss_nz, df.Ss_zf, df.WE_nz, df.WE_zf, df.WM_nz, df.WM_zf,
   df.RE_nz, df.RE_zf, df.RM_nz, df.RM_zf,
   df.NE_nz, df.NE_zf, df.NM_nz, df.NM_zf,
   df.Ds_nz, df.Ds_zf, df.GE, df.GM, df.QE, df.QM]

/-- The table is rectangular: every column has the row count of `t`. -/
def HistoryTable.WF (df : HistoryTable) : Prop :=
  ∀ c ∈ df.cols, c.length = df.t.length

instance (df : HistoryTable) : Decidable (df.WF) := by
  unfold HistoryTable.WF; infer_instance

/-- The six source columns from which derivatives are taken, in order. -/
def HistoryTable.sourceCols (df : HistoryTable) : List (List ℚ) :=
  [df.Ss_nz, df.Ss_zf, df.WE_nz, df.WE_zf, df.WM_nz, df.WM_zf]

/-- The 21 input column names assigned by `_calc_entropy_balance`. -/
def inputColumnNames : List String :=
  ["t",
   "Ss_nz", "Ss_zf", "WE_nz", "WE_zf", "WM_nz", "WM_zf",
   "RE_nz", "RE_zf", "RM_nz", "RM_zf",
   "NE_nz", "NE_zf", "NM_nz", "NM_zf",
   "Ds_nz", "Ds_zf",
   "GE", "GM", "QE", "QM"]

/-- The 6 derivative column names added by `_calc_entropy_balance`, in the
order they are assigned. -/
def derivColumnNames : List String :=
  ["dSsdt_nz", "dSsdt_zf", "dWEdt_nz", "dWEdt_zf", "dWMdt_nz", "dWMdt_zf"]

/-- The augmented table: the 21 original columns plus the 6 derivative
columns (entries `none` are the float `NaN` sentinel). -/
structure AugTable extends HistoryTable where
  dSsdt_nz : List (Option ℚ)
  dSsdt_zf : List (Option ℚ)
  dWEdt_nz : List (Option ℚ)
  dWEdt_zf : List (Option ℚ)
  dWMdt_nz : List (Option ℚ)
  dWMdt_zf : List (Option ℚ)

/-- The six derivative columns, in assignment order. -/
def AugTable.derivCols (df : AugTable) : List (List (Option ℚ)) :=
  [df.dSsdt_nz, df.dSsdt_zf, df.dWEdt_nz, df.dWEdt_zf, df.dWMdt_nz, df.dWMdt_zf]

/-- `_calc_entropy_balance(df, non_uniform)`: copies the input table and adds
the six derivative columns, using the estimator selected by `non_uniform`. -/
def _calc_entropy_balance (df : HistoryTable) (non_uniform : Bool := true) : AugTable :=
  if non_uniform then
    { toHistoryTable := df
      dSsdt_nz := non_uniform_derivative df.t df.Ss_nz
      dSsdt_zf := non_uniform_derivative df.t df.Ss_zf
      dWEdt_nz := non_uniform_derivative df.t df.WE_nz
      dWEdt_zf := non_uniform_derivative df.t df.WE_zf
      dWMdt_nz := non_uniform_derivative df.t df.WM_nz
      dWMdt_zf := non_uniform_derivative df.t df.WM_zf }
  else
    { toHistoryTable := df
      dSsdt_nz := uniform_derivative df.t df.Ss_nz
      dSsdt_zf := uniform_derivative df.t df.Ss_zf
      dWEdt_nz := uniform_derivative df.t df.WE_nz
      dWEdt_zf := uniform_derivative df.t df.WE_zf
      dWMdt_nz := uniform_derivative df.t df.WM_nz
      dWMdt_zf := uniform_derivative df.t df.WM_zf }

/-! ## Serialization (`_save_entropy_balance`)

A serialized cell is either a numeric value (printed with the float format
`17.7e`, whose digit-level text is a float-formatting concern outside this
embedding), a float `NaN` that reached the numeric format, or the literal
string `'NaN'` the source writes for sentinel rows (printed with the string
format `>17s`, modelled by `renderStrCell`). -/

inductive Field where
  | num (v : ℚ)
  | nanNum
  | nanStr
deriving DecidableEq

/-- How a float cell of a derivative column enters the serializer: a real
value stays numeric, the float `NaN` sentinel becomes a `nan` float cell. -/
def Field.ofOpt : Option ℚ → Field
  | some v => .num v
  | none => .nanNum

/-- Python `f'{s:>17s}'`: right-justify in a 17-character field. -/
def rjust17 (s : String) : String :=
  String.mk (List.replicate (17 - s.length) ' ') ++ s

/-- Rendering of a string-valued cell by the source's format expression
`f'{v:>17s}'`. -/
def renderStrCell (s : String) : String := rjust17 s

/-- The 21 header column names written by `_save_entropy_balance`, in output
order (note the output order differs from the in-memory order). -/
def headerCols : List String :=
  ["#            time", "dSsdt_nz", "dSsdt_zf",
   "dWEdt_nz", "dWEdt_zf", "dWMdt_nz", "dWMdt_zf",
   "RE_nz", "RE_zf", "RM_nz", "RM_zf",
   "NE_nz", "NE_zf", "NM_nz", "NM_zf",
   "Ds_nz", "Ds_zf", "GE", "GM", "QE", "QM"]

/-- The serialized text artifact: the rendered header line, and one list of
cell values per data row. -/
structure Artifact where
  header : String
  rows : List (List Field)

/-- The `values` list built for a sentinel row (`i < 2 or i >= len(df)-2`):
the time value, the literal string `'NaN'` six times, then the 14 remaining
physical columns. -/
def sentinelRowValues (df : AugTable) (i : ℕ) : List Field :=
  [Field.num (df.t.getD i 0)] ++ List.replicate 6 Field.nanStr ++
  [Field.num (df.RE_nz.getD i 0), Field.num (df.RE_zf.getD i 0),
   Field.num (df.RM_nz.getD i 0), Field.num (df.RM_zf.getD i 0),
   Field.num (df.NE_nz.getD i 0), Field.num (df.NE_zf.getD i 0),
   Field.num (df.NM_nz.getD i 0), Field.num (df.NM_zf.getD i 0),
   Field.num (df.Ds_nz.getD i 0), Field.num (df.Ds_zf.getD i 0),
   Field.num (df.GE.getD i 0), Field.num (df.GM.getD i 0),
   Field.num (df.QE.getD i 0), Field.num (df.QM.getD i 0)]

/-- The `values` list built for an interior row: the time value, the six
derivative values, then the 14 remaining physical columns. -/
def interiorRowValues (df : AugTable) (i : ℕ) : List Field :=
  [Field.num (df.t.getD i 0),
   Field.ofOpt (df.dSsdt_nz.getD i none), Field.ofOpt (df.dSsdt_zf.getD i none),
   Field.ofOpt (df.dWEdt_nz.getD i none), Field.ofOpt (df.dWEdt_zf.getD i none),
   Field.ofOpt (df.dWMdt_nz.getD i none), Field.ofOpt (df.dWMdt_zf.getD i none),
   Field.num (df.RE_nz.getD i 0), Field.num (df.RE_zf.getD i 0),
   Field.num (df.RM_nz.getD i 0), Field.num (df.RM_zf.getD i 0),
   Field.num (df.NE_nz.getD i 0), Field.num (df.NE_zf.getD i 0),
   Field.num (df.NM_nz.getD i 0), Field.num (df.NM_zf.getD i 0),
   Field.num (df.Ds_nz.getD i 0), Field.num (df.Ds_zf.getD i 0),
   Field.num (df.GE.getD i 0), Field.num (df.GM.getD i 0),
   Field.num (df.QE.getD i 0), Field.num (df.QM.getD i 0)]

/-- `_save_entropy_balance(df, filepath)`: header line of right-justified
17-character names, then one `values` line per row; rows with
`i < 2 or i >= len(df) - 2` get the string sentinel in the six derivative
fields. -/
def _save_entropy_balance (df : AugTable) : Artifact :=
  { header := String.join (headerCols.map rjust17)
    rows := (List.range df.t.length).map fun i =>
      if i < 2 ∨ df.t.length - 2 ≤ i then sentinelRowValues df i else interiorRowValues df i }

/-- `save_entropy_balance(df, filepath, non_uniform)`: compute, then
serialize. -/
def save_entropy_balance (df : HistoryTable) (non_uniform : Bool := true) : Artifact :=
  _save_entropy_balance (_calc_entropy_balance df non_uniform)

/-! ## Pipeline entry and CLI (src/gkvfigpdf/make_pdf.py)

`gkvfigpdf` is modelled as a trace semantics: the result is the list of
directory-creation effects performed, plus an optional
`FileNotFoundError`-class message.  The downstream pipeline body (history
aggregation, plotting, PDF assembly — pure file I/O after the two
`clean_directory` calls) is abstracted as an argument `rest`: its effect
trace and its optional `FileNotFoundError`. -/

structure GkvPaths where
  dirIsDir : Bool
  hstIsDir : Bool
  logIsFile : Bool
  namelistIsFile : Bool

/-- The four required-path checks of `gkvfigpdf`, in source order, before the
two `clean_directory` calls create `data/` and `fig/` under the fresh output
root. -/
def gkvfigpdf (p : GkvPaths) (rest : List String × Option String) :
    List String × Option String :=
  if p.dirIsDir = false then ([], some "GKV standard output directory not found")
  else if p.hstIsDir = false then ([], some "hst directory not found")
  else if p.logIsFile = false then ([], some "Log file not found")
  else if p.namelistIsFile = false then ([], some "Namelist file not found")
  else ("data" :: "fig" :: rest.1, rest.2)

/-- The CLI entry `main`: exit status 2 with usage text when the directory
argument is omitted; otherwise run `gkvfigpdf`, catching
`FileNotFoundError` as exit status 1; exit status 0 on success.  Result:
(exit code, usage text printed). -/
def main (dirArg : Option GkvPaths) (rest : List String × Option String) : ℕ × Bool :=
  match dirArg with
  | none => (2, true)
  | some p =>
    match (gkvfigpdf p rest).2 with
    | some _ => (1, false)
    | none => (0, false)

/-! ## Parameter extraction (src/gkvfigpdf/utils/parse_parameter_setting.py)

Lines are `List Char`.  The three `re.search` patterns are implemented as
leftmost scans of their mandatory cores (`#?\s*` is an optional match prefix
and does not affect whether a match exists). -/

def skipWs (cs : List Char) : List Char := cs.dropWhile Char.isWhitespace

def matchLit (pat cs : List Char) : Option (List Char) :=
  if pat.isPrefixOf cs then some (cs.drop pat.length) else none

def digitsVal (ds : List Char) : ℕ := ds.foldl (fun a c => 10 * a + (c.toNat - 48)) 0

def matchDigits (cs : List Char) : Option ℕ :=
  let ds := cs.takeWhile Char.isDigit
  if ds = [] then none else some (digitsVal ds)

def matchWord (cs : List Char) : Option (List Char) :=
  let ws := cs.takeWhile fun c => c.isAlphanum || c = '_'
  if ws = [] then none else some ws

/-- One attempted match of `nprocs\s*,\s*rank\s*=\s*(\d+)` at a fixed start. -/
def nprocsAt (cs : List Char) : Option ℕ := do
  let c1 ← matchLit "nprocs".toList cs
  let c2 ← matchLit [','] (skipWs c1)
  let c3 ← matchLit "rank".toList (skipWs c2)
  let c4 ← matchLit ['='] (skipWs c3)
  matchDigits (skipWs c4)

/-- One attempted match of `global_ny\s*=\s*(\d+)` at a fixed start. -/
def globalNyAt (cs : List Char) : Option ℕ := do
  let c1 ← matchLit "global_ny".toList cs
  let c2 ← matchLit ['='] (skipWs c1)
  matchDigits (skipWs c2)

/-- One attempted match of `Type of calc\.\s*[:=]\s*(\w+)` at a fixed start. -/
def calcTypeAt (cs : List Char) : Option (List Char) := do
  let c1 ← matchLit "Type of calc.".toList cs
  let c2 := skipWs c1
  let c3 ← (matchLit [':'] c2).orElse (fun _ => matchLit ['='] c2)
  matchWord (skipWs c3)

/-- `re.search`: try the pattern at every start position, leftmost first. -/
def searchSome {α : Type} (f : List Char → Option α) (line : List Char) : Option α :=
  (line.tails.filterMap f).head?

/-- Python `pat in line` (substring containment). -/
def containsSub (pat line : List Char) : Bool :=
  line.tails.any fun suf => pat.isPrefixOf suf

/-- One iteration of the line loop of `parse_parameters`, updating the
`(nprocs, global_ny, calc_type)` state with the source's `if`/`elif`
structure. -/
def parseStep (st : Option ℕ × Option ℕ × Option (List Char)) (line : List Char) :
    Option ℕ × Option ℕ × Option (List Char) :=
  if containsSub "nprocs".toList line && containsSub "rank".toList line then
    match searchSome nprocsAt line with
    | some v => (some v, st.2.1, st.2.2)
    | none => st
  else if containsSub "global_ny".toList line then
    match searchSome globalNyAt line with
    | some v => (st.1, some v, st.2.2)
    | none => st
  else if containsSub "Type of calc".toList line then
    match searchSome calcTypeAt line with
    | some v => (st.1, st.2.1, some v)
    | none => st
  else st

/-- `parse_parameters(log_path)`: scan all lines, then either return the
triple or raise (`ValueError`) if any of the three is still unset. -/
def parse_parameters (lines : List (List Char)) : Except String (ℕ × ℕ × List Char) :=
  match lines.foldl parseStep (none, none, none) with
  | (some np, some gy, some ct) => .ok (np, gy, ct)
  | _ => .error "parameter extraction failed"

/-- A line that the loop recognizes as an `nprocs`/`rank` line and whose
regular expression matches. -/
def nprocsLineHit (line : List Char) : Bool :=
  (containsSub "nprocs".toList line && containsSub "rank".toList line) &&
    (searchSome nprocsAt line).isSome

/-- A line that the loop recognizes as a `global_ny` line (not taken by the
`nprocs` branch) and whose regular expression matches. -/
def globalNyLineHit (line : List Char) : Bool :=
  (!(containsSub "nprocs".toList line && containsSub "rank".toList line) &&
    containsSub "global_ny".toList line) && (searchSome globalNyAt line).isSome

/-- A line that the loop recognizes as a `Type of calc.` line (not taken by
the two earlier branches) and whose regular expression matches. -/
def calcTypeLineHit (line : List Char) : Bool :=
  ((!(containsSub "nprocs".toList line && containsSub "rank".toList line) &&
    !(containsSub "global_ny".toList line)) &&
    containsSub "Type of calc".toList line) && (searchSome calcTypeAt line).isSome

/-! ## Concrete tables for witnesses and counterexamples -/

/-- A 5-row strictly increasing uniform time column. -/
def wlist5 : List ℚ := [0, 1, 2, 3, 4]

/-- A 5-row table, every column `[0,1,2,3,4]`. -/
def witTable5 : HistoryTable :=
  ⟨wlist5, wlist5, wlist5, wlist5, wlist5, wlist5, wlist5, wlist5, wlist5, wlist5, wlist5,
   wlist5, wlist5, wlist5, wlist5, wlist5, wlist5, wlist5, wlist5, wlist5, wlist5⟩

/-- A 9-row strictly increasing, non-uniformly spaced time column. -/
def cexList9 : List ℚ := [0, 1, 2, 3, 10, 11, 12, 13, 14]

/-- A 9-row table, every column equal to the non-uniform time column (so
every source column is the linear ramp `1 * t + 0`). -/
def C5table : HistoryTable :=
  ⟨cexList9, cexList9, cexList9, cexList9, cexList9, cexList9, cexList9, cexList9, cexList9,
   cexList9, cexList9, cexList9, cexList9, cexList9, cexList9, cexList9, cexList9, cexList9,
   cexList9, cexList9, cexList9⟩

/-- The six source columns are linear ramps `a k * t + b k` in the time
column. -/
def RampTable (df : HistoryTable) (a b : ℕ → ℚ) : Prop :=
  ∀ k, k < 6 → ∀ i, i < df.t.length →
    (df.sourceCols.getD k []).getD i 0 = a k * df.t.getD i 0 + b k

instance (df : HistoryTable) (a b : ℕ → ℚ) : Decidable (RampTable df a b) := by
  unfold RampTable; infer_instance

/-- Claim C5 as stated: on every 9-row strictly increasing ramp table, the
augmented output has 27 columns and 9 rows, sentinel rows `{0,1,7,8}`, and
rows 2–6 equal to the exact ramp slope, under BOTH estimators. -/
def claimC5 : Prop :=
  ∀ (df : HistoryTable) (a b : ℕ → ℚ), df.WF → df.t.length = 9 → StrictIncr df.t →
    RampTable df a b → ∀ flag : Bool,
      (inputColumnNames ++ derivColumnNames).length = 27 ∧
      (∀ c ∈ (_calc_entropy_balance df flag).derivCols, c.length = 9) ∧
      (∀ c ∈ (_calc_entropy_balance df flag).derivCols, ∀ i,
        (i = 0 ∨ i = 1 ∨ i = 7 ∨ i = 8) → c.getD i none = none) ∧
      (∀ k, k < 6 → ∀ i, 2 ≤ i → i ≤ 6 →
        ((_calc_entropy_balance df flag).derivCols.getD k []).getD i none = some (a k))

/-! ## Helper lemmas -/

theorem getD_map_range {α : Type} (n : ℕ) (f : ℕ → α) (d : α) (i : ℕ) :
    (((List.range n).map f).getD i d) = if i < n then f i else d := by
  by_cases h : i < n
  · rw [List.getD_eq_getElem?_getD, List.getElem?_map, List.getElem?_range h]
    simp [h]
  · rw [List.getD_eq_getElem?_getD, List.getElem?_map]
    rw [List.getElem?_eq_none (by simpa using Nat.le_of_not_lt h)]
    simp [h]

theorem non_uniform_derivative_length (t y : List ℚ) :
    (non_uniform_derivative t y).length = t.length := by
  simp [non_uniform_derivative]

theorem uniform_derivative_length (t y : List ℚ) :
    (uniform_derivative t y).length = t.length := by
  simp [uniform_derivative]

theorem non_uniform_derivative_getD (t y : List ℚ) (i : ℕ)
    (h2 : 2 ≤ i) (hn : i < t.length - 2) :
    (non_uniform_derivative t y).getD i none = some (nonUniformStencil t y i) := by
  unfold non_uniform_derivative
  rw [getD_map_range, if_pos (by omega : i < t.length), if_pos ⟨h2, hn⟩]

theorem uniform_derivative_getD (t y : List ℚ) (i : ℕ)
    (h2 : 2 ≤ i) (hn : i < t.length - 2) :
    (uniform_derivative t y).getD i none = some (uniformStencil t y i) := by
  unfold uniform_derivative
  rw [getD_map_range, if_pos (by omega : i < t.length), if_pos ⟨h2, hn⟩]

theorem non_uniform_derivative_getD_none_iff (t y : List ℚ) (i : ℕ) :
    (non_uniform_derivative t y).getD i none = none ↔ ¬(2 ≤ i ∧ i < t.length - 2) := by
  unfold non_uniform_derivative
  rw [getD_map_range]
  by_cases hi : i < t.length
  · rw [if_pos hi]
    by_cases hc : 2 ≤ i ∧ i < t.length - 2
    · simp [hc]
    · simp [hc]
  · rw [if_neg hi]
    simp only [true_iff]
    omega

theorem uniform_derivative_getD_none_iff (t y : List ℚ) (i : ℕ) :
    (uniform_derivative t y).getD i none = none ↔ ¬(2 ≤ i ∧ i < t.length - 2) := by
  unfold uniform_derivative
  rw [getD_map_range]
  by_cases hi : i < t.length
  · rw [if_pos hi]
    by_cases hc : 2 ≤ i ∧ i < t.length - 2
    · simp [hc]
    · simp [hc]
  · rw [if_neg hi]
    simp only [true_iff]
    omega

theorem div_shift (N D Q P : ℚ) (hQ : Q ≠ 0) (h : P = D * Q) : N / D = N * Q / P := by
  rw [h, mul_div_mul_right N D hQ]

/-- The spec-side Lagrange sum only reads window slots 0–4 and coincides
with the source's explicit five-weight formula, unconditionally. -/
theorem specDerivative_eq (ts ys : ℕ → ℚ) :
    specDerivative ts ys =
      nonUniformWeighted (ts 0) (ts 1) (ts 2) (ts 3) (ts 4)
        (ys 0) (ys 1) (ys 2) (ys 3) (ys 4) := by
  simp only [specDerivative, specLagrangeWeight, specNodes, nonUniformWeighted,
    num_cefm2, den_cefm2, num_cefm1, den_cefm1, num_cefp0, den_cefp0,
    num_cefp1, den_cefp1, num_cefp2, den_cefp2]
  norm_num [List.filter]
  ring

/-- Exactness of the source's five-weight formula on linear data
`y = a*t + b`, for pairwise distinct abscissas. -/
theorem nonUniformWeighted_linear (a b t1 t2 t3 t4 t5 : ℚ)
    (d12 : t1 - t2 ≠ 0) (d13 : t1 - t3 ≠ 0) (d14 : t1 - t4 ≠ 0) (d15 : t1 - t5 ≠ 0)
    (d23 : t2 - t3 ≠ 0) (d24 : t2 - t4 ≠ 0) (d25 : t2 - t5 ≠ 0)
    (d34 : t3 - t4 ≠ 0) (d35 : t3 - t5 ≠ 0) (d45 : t4 - t5 ≠ 0) :
    nonUniformWeighted t1 t2 t3 t4 t5 (a*t1+b) (a*t2+b) (a*t3+b) (a*t4+b) (a*t5+b) = a := by
  have hP : (t1-t2)*(t1-t3)*(t1-t4)*(t1-t5)*(t2-t3)*(t2-t4)*(t2-t5)*(t3-t4)*(t3-t5)*(t4-t5) ≠ 0 :=
    mul_ne_zero (mul_ne_zero (mul_ne_zero (mul_ne_zero (mul_ne_zero (mul_ne_zero
      (mul_ne_zero (mul_ne_zero (mul_ne_zero d12 d13) d14) d15) d23) d24) d25) d34) d35) d45
  have hQ1 : (t2-t3)*(t2-t4)*(t2-t5)*(t3-t4)*(t3-t5)*(t4-t5) ≠ 0 :=
    mul_ne_zero (mul_ne_zero (mul_ne_zero (mul_ne_zero (mul_ne_zero d23 d24) d25) d34) d35) d45
  have hQ2 : -((t1-t3)*(t1-t4)*(t1-t5)*(t3-t4)*(t3-t5)*(t4-t5)) ≠ 0 :=
    neg_ne_zero.mpr
      (mul_ne_zero (mul_ne_zero (mul_ne_zero (mul_ne_zero (mul_ne_zero d13 d14) d15) d34) d35) d45)
  have hQ3 : (t1-t2)*(t1-t4)*(t1-t5)*(t2-t4)*(t2-t5)*(t4-t5) ≠ 0 :=
    mul_ne_zero (mul_ne_zero (mul_ne_zero (mul_ne_zero (mul_ne_zero d12 d14) d15) d24) d25) d45
  have hQ4 : -((t1-t2)*(t1-t3)*(t1-t5)*(t2-t3)*(t2-t5)*(t3-t5)) ≠ 0 :=
    neg_ne_zero.mpr
      (mul_ne_zero (mul_ne_zero (mul_ne_zero (mul_ne_zero (mul_ne_zero d12 d13) d15) d23) d25) d35)
  have hQ5 : (t1-t2)*(t1-t3)*(t1-t4)*(t2-t3)*(t2-t4)*(t3-t4) ≠ 0 :=
    mul_ne_zero (mul_ne_zero (mul_ne_zero (mul_ne_zero (mul_ne_zero d12 d13) d14) d23) d24) d34
  have h1 := div_shift (num_cefm2 t1 t2 t3 t4 t5) (den_cefm2 t1 t2 t3 t4 t5)
    ((t2-t3)*(t2-t4)*(t2-t5)*(t3-t4)*(t3-t5)*(t4-t5))
    ((t1-t2)*(t1-t3)*(t1-t4)*(t1-t5)*(t2-t3)*(t2-t4)*(t2-t5)*(t3-t4)*(t3-t5)*(t4-t5))
    hQ1 (by unfold den_cefm2; ring)
  have h2 := div_shift (num_cefm1 t1 t2 t3 t4 t5) (den_cefm1 t1 t2 t3 t4 t5)
    (-((t1-t3)*(t1-t4)*(t1-t5)*(t3-t4)*(t3-t5)*(t4-t5)))
    ((t1-t2)*(t1-t3)*(t1-t4)*(t1-t5)*(t2-t3)*(t2-t4)*(t2-t5)*(t3-t4)*(t3-t5)*(t4-t5))
    hQ2 (by unfold den_cefm1; ring)
  have h3 := div_shift (num_cefp0 t1 t2 t3 t4 t5) (den_cefp0 t1 t2 t3 t4 t5)
    ((t1-t2)*(t1-t4)*(t1-t5)*(t2-t4)*(t2-t5)*(t4-t5))
    ((t1-t2)*(t1-t3)*(t1-t4)*(t1-t5)*(t2-t3)*(t2-t4)*(t2-t5)*(t3-t4)*(t3-t5)*(t4-t5))
    hQ3 (by unfold den_cefp0; ring)
  have h4 := div_shift (num_cefp1 t1 t2 t3 t4 t5) (den_cefp1 t1 t2 t3 t4 t5)
    (-((t1-t2)*(t1-t3)*(t1-t5)*(t2-t3)*(t2-t5)*(t3-t5)))
    ((t1-t2)*(t1-t3)*(t1-t4)*(t1-t5)*(t2-t3)*(t2-t4)*(t2-t5)*(t3-t4)*(t3-t5)*(t4-t5))
    hQ4 (by unfold den_cefp1; ring)
  have h5 := div_shift (num_cefp2 t1 t2 t3 t4 t5) (den_cefp2 t1 t2 t3 t4 t5)
    ((t1-t2)*(t1-t3)*(t1-t4)*(t2-t3)*(t2-t4)*(t3-t4))
    ((t1-t2)*(t1-t3)*(t1-t4)*(t1-t5)*(t2-t3)*(t2-t4)*(t2-t5)*(t3-t4)*(t3-t5)*(t4-t5))
    hQ5 (by unfold den_cefp2; ring)
  simp only [nonUniformWeighted]
  rw [h1, h2, h3, h4, h5]
  rw [div_mul_eq_mul_div, div_mul_eq_mul_div, div_mul_eq_mul_div, div_mul_eq_mul_div,
    div_mul_eq_mul_div, div_add_div_same, div_add_div_same, div_add_div_same, div_add_div_same]
  rw [show num_cefm2 t1 t2 t3 t4 t5 * ((t2-t3)*(t2-t4)*(t2-t5)*(t3-t4)*(t3-t5)*(t4-t5)) * (a*t1+b) +
      num_cefm1 t1 t2 t3 t4 t5 * -((t1-t3)*(t1-t4)*(t1-t5)*(t3-t4)*(t3-t5)*(t4-t5)) * (a*t2+b) +
      num_cefp0 t1 t2 t3 t4 t5 * ((t1-t2)*(t1-t4)*(t1-t5)*(t2-t4)*(t2-t5)*(t4-t5)) * (a*t3+b) +
      num_cefp1 t1 t2 t3 t4 t5 * -((t1-t2)*(t1-t3)*(t1-t5)*(t2-t3)*(t2-t5)*(t3-t5)) * (a*t4+b) +
      num_cefp2 t1 t2 t3 t4 t5 * ((t1-t2)*(t1-t3)*(t1-t4)*(t2-t3)*(t2-t4)*(t3-t4)) * (a*t5+b) =
      a * ((t1-t2)*(t1-t3)*(t1-t4)*(t1-t5)*(t2-t3)*(t2-t4)*(t2-t5)*(t3-t4)*(t3-t5)*(t4-t5)) from by
    unfold num_cefm2 num_cefm1 num_cefp0 num_cefp1 num_cefp2; ring]
  rw [mul_div_assoc, div_self hP, mul_one]

/-- On an exactly uniform window `t = T, T+h, …, T+4h` the five Lagrange
weights collapse to `1/(12h), -8/(12h), 0, 8/(12h), -1/(12h)`. -/
theorem nonUniformWeighted_uniform_spacing (T h y1 y2 y3 y4 y5 : ℚ) (hh : h ≠ 0) :
    nonUniformWeighted T (T+h) (T+2*h) (T+3*h) (T+4*h) y1 y2 y3 y4 y5 =
      (1 / (12 * h)) * (-y5 + 8*y4 - 8*y2 + y1) := by
  have h4 : (24:ℚ)*h^4 ≠ 0 := by positivity
  have h4b : (-6:ℚ)*h^4 ≠ 0 := by
    simp only [neg_mul, neg_ne_zero]
    positivity
  have h12 : (12:ℚ)*h ≠ 0 := by positivity
  have w1 : num_cefm2 T (T+h) (T+2*h) (T+3*h) (T+4*h) / den_cefm2 T (T+h) (T+2*h) (T+3*h) (T+4*h)
      = 1/(12*h) := by
    unfold num_cefm2 den_cefm2
    rw [show (T+2*h - (T+h)) * (T+2*h - (T+3*h)) * (T+2*h - (T+4*h)) = 2*h^3 from by ring,
        show (T - (T+h)) * (T - (T+2*h)) * (T - (T+3*h)) * (T - (T+4*h)) = 24*h^4 from by ring,
        div_eq_div_iff h4 h12]
    ring
  have w2 : num_cefm1 T (T+h) (T+2*h) (T+3*h) (T+4*h) / den_cefm1 T (T+h) (T+2*h) (T+3*h) (T+4*h)
      = -8/(12*h) := by
    unfold num_cefm1 den_cefm1
    rw [show (T+2*h - T) * (T+2*h - (T+3*h)) * (T+2*h - (T+4*h)) = 4*h^3 from by ring,
        show (T+h - T) * (T+h - (T+2*h)) * (T+h - (T+3*h)) * (T+h - (T+4*h)) = -6*h^4 from by ring,
        div_eq_div_iff h4b h12]
    ring
  have w3 : num_cefp0 T (T+h) (T+2*h) (T+3*h) (T+4*h) / den_cefp0 T (T+h) (T+2*h) (T+3*h) (T+4*h)
      = 0 := by
    unfold num_cefp0 den_cefp0
    rw [show (T+2*h - (T+h)) * (T+2*h - (T+3*h)) * (T+2*h - (T+4*h)) +
        (T+2*h - T) * (T+2*h - (T+3*h)) * (T+2*h - (T+4*h)) +
        (T+2*h - T) * (T+2*h - (T+h)) * (T+2*h - (T+4*h)) +
        (T+2*h - T) * (T+2*h - (T+h)) * (T+2*h - (T+3*h)) = 0 from by ring]
    exact zero_div _
  have w4 : num_cefp1 T (T+h) (T+2*h) (T+3*h) (T+4*h) / den_cefp1 T (T+h) (T+2*h) (T+3*h) (T+4*h)
      = 8/(12*h) := by
    unfold num_cefp1 den_cefp1
    rw [show (T+2*h - T) * (T+2*h - (T+h)) * (T+2*h - (T+4*h)) = -4*h^3 from by ring,
        show (T+3*h - T) * (T+3*h - (T+h)) * (T+3*h - (T+2*h)) * (T+3*h - (T+4*h)) = -6*h^4
          from by ring,
        div_eq_div_iff h4b h12]
    ring
  have w5 : num_cefp2 T (T+h) (T+2*h) (T+3*h) (T+4*h) / den_cefp2 T (T+h) (T+2*h) (T+3*h) (T+4*h)
      = -1/(12*h) := by
    unfold num_cefp2 den_cefp2
    rw [show (T+2*h - T) * (T+2*h - (T+h)) * (T+2*h - (T+3*h)) = -2*h^3 from by ring,
        show (T+4*h - T) * (T+4*h - (T+h)) * (T+4*h - (T+2*h)) * (T+4*h - (T+3*h)) = 24*h^4
          from by ring,
        div_eq_div_iff h4 h12]
    ring
  simp only [nonUniformWeighted]
  rw [w1, w2, w3, w4, w5]
  ring

/-- Strictly increasing time gives distinct entries. -/
theorem StrictIncr.getD_ne (t : List ℚ) (hinc : StrictIncr t) (p q : ℕ)
    (hpq : p < q) (hq : q < t.length) : t.getD p 0 - t.getD q 0 ≠ 0 :=
  sub_ne_zero_of_ne (ne_of_lt (hinc q hq p hpq))

/-- The non-uniform estimator is exact on linear data at interior rows. -/
theorem non_uniform_derivative_ramp (t y : List ℚ) (a b : ℚ) (hinc : StrictIncr t)
    (hy : ∀ i, i < t.length → y.getD i 0 = a * t.getD i 0 + b)
    (i : ℕ) (h2 : 2 ≤ i) (hn : i < t.length - 2) :
    (non_uniform_derivative t y).getD i none = some a := by
  rw [non_uniform_derivative_getD t y i h2 hn]
  congr 1
  unfold nonUniformStencil
  rw [hy (i-2) (by omega), hy (i-1) (by omega), hy i (by omega),
      hy (i+1) (by omega), hy (i+2) (by omega)]
  exact nonUniformWeighted_linear a b _ _ _ _ _
    (hinc.getD_ne t (i-2) (i-1) (by omega) (by omega))
    (hinc.getD_ne t (i-2) i (by omega) (by omega))
    (hinc.getD_ne t (i-2) (i+1) (by omega) (by omega))
    (hinc.getD_ne t (i-2) (i+2) (by omega) (by omega))
    (hinc.getD_ne t (i-1) i (by omega) (by omega))
    (hinc.getD_ne t (i-1) (i+1) (by omega) (by omega))
    (hinc.getD_ne t (i-1) (i+2) (by omega) (by omega))
    (hinc.getD_ne t i (i+1) (by omega) (by omega))
    (hinc.getD_ne t i (i+2) (by omega) (by omega))
    (hinc.getD_ne t (i+1) (i+2) (by omega) (by omega))

/-- On a constant-gap grid the window rows `i-2 .. i+2` are `T, T+h, …, T+4h`. -/
theorem window_of_constant_gap (t : List ℚ) (h : ℚ)
    (hsp : ∀ j, j < t.length - 1 → t.getD (j+1) 0 - t.getD j 0 = h)
    (i : ℕ) (h2 : 2 ≤ i) (hn : i < t.length - 2) :
    t.getD (i-1) 0 = t.getD (i-2) 0 + h ∧
    t.getD i 0 = t.getD (i-2) 0 + 2*h ∧
    t.getD (i+1) 0 = t.getD (i-2) 0 + 3*h ∧
    t.getD (i+2) 0 = t.getD (i-2) 0 + 4*h := by
  have e1 := hsp (i-2) (by omega)
  rw [show i - 2 + 1 = i - 1 from by omega] at e1
  have e2 := hsp (i-1) (by omega)
  rw [show i - 1 + 1 = i from by omega] at e2
  have e3 := hsp i (by omega)
  have e4 := hsp (i+1) (by omega)
  refine ⟨by linarith, by linarith, by linarith, by linarith⟩

/-- The uniform estimator is exact on linear data at interior rows of a
constant-gap grid. -/
theorem uniform_derivative_ramp_uniform_grid (t y : List ℚ) (a b h : ℚ) (hh : 0 < h)
    (hsp : ∀ j, j < t.length - 1 → t.getD (j+1) 0 - t.getD j 0 = h)
    (hy : ∀ i, i < t.length → y.getD i 0 = a * t.getD i 0 + b)
    (i : ℕ) (h2 : 2 ≤ i) (hn : i < t.length - 2) :
    (uniform_derivative t y).getD i none = some a := by
  rw [uniform_derivative_getD t y i h2 hn]
  congr 1
  obtain ⟨g1, g2, g3, g4⟩ := window_of_constant_gap t h hsp i h2 hn
  unfold uniformStencil
  rw [hy (i-2) (by omega), hy (i-1) (by omega), hy (i+1) (by omega), hy (i+2) (by omega),
      g1, g2, g3, g4]
  have hne : h ≠ 0 := ne_of_gt hh
  field_simp
  ring_nf
  rw [mul_assoc, mul_inv_cancel₀ hne, mul_one]

/-! ## Claim theorems -/

/-- C1: for strictly increasing `t` and interior row `i`, the non-uniform
estimator returns exactly the differentiated-Lagrange-basis value
`Σ_k c_k · y[i+k]` with `c_k = Σ_{j≠k} Π_{m≠k,j}(t_0 - t_m) / Π_{m≠k}(t_k - t_m)`
evaluated at `t_0 = t[i]` (the `k = 0` numerator being the sum of four
products, one per excluded partner `j`). -/
theorem non_uniform_derivative_is_lagrange (t y : List ℚ) (hinc : StrictIncr t) (i : ℕ)
    (h2 : 2 ≤ i) (hn : i < t.length - 2) :
    (non_uniform_derivative t y).getD i none =
      some (specDerivative (window t i) (window y i)) := by
  rw [non_uniform_derivative_getD t y i h2 hn]
  congr 1
  rw [specDerivative_eq]
  unfold nonUniformStencil window
  rw [show i - 2 + 0 = i - 2 from by omega, show i - 2 + 1 = i - 1 from by omega,
      show i - 2 + 2 = i from by omega, show i - 2 + 3 = i + 1 from by omega,
      show i - 2 + 4 = i + 2 from by omega]

/-- Witness for C1 at `t = y = [0,1,2,3,4]`, `i = 2`. -/
theorem non_uniform_derivative_is_lagrange_witness :
    (StrictIncr wlist5 ∧ 2 ≤ 2 ∧ 2 < wlist5.length - 2) ∧
    (non_uniform_derivative wlist5 wlist5).getD 2 none =
      some (specDerivative (window wlist5 2) (window wlist5 2)) :=
  ⟨⟨by decide, by norm_num, by decide⟩,
    non_uniform_derivative_is_lagrange wlist5 wlist5 (by decide) 2 (by norm_num) (by decide)⟩

/-- C3: the uniform estimator at an interior row is the classical 4th-order
central difference over the single local gap `h = t[i+1] - t[i]`. -/
theorem uniform_derivative_interior (t y : List ℚ) (i : ℕ)
    (h2 : 2 ≤ i) (hn : i < t.length - 2) :
    (uniform_derivative t y).getD i none =
      some ((y.getD (i-2) 0 - 8 * y.getD (i-1) 0 + 8 * y.getD (i+1) 0 - y.getD (i+2) 0)
        / (12 * (t.getD (i+1) 0 - t.getD i 0))) := by
  rw [uniform_derivative_getD t y i h2 hn]
  congr 1
  unfold uniformStencil
  simp only []
  ring

/-- Witness for C3 at `t = y = [0,1,2,3,4]`, `i = 2`. -/
theorem uniform_derivative_interior_witness :
    (2 ≤ 2 ∧ 2 < wlist5.length - 2) ∧
    (uniform_derivative wlist5 wlist5).getD 2 none =
      some ((wlist5.getD 0 0 - 8 * wlist5.getD 1 0 + 8 * wlist5.getD 3 0 - wlist5.getD 4 0)
        / (12 * (wlist5.getD 3 0 - wlist5.getD 2 0))) :=
  ⟨⟨by norm_num, by decide⟩,
    uniform_derivative_interior wlist5 wlist5 2 (by norm_num) (by decide)⟩

/-- C4: when the time column has a constant positive gap `h`, the
non-uniform and uniform estimators agree at every interior row (the Lagrange
weights collapse to `1/(12h), -8/(12h), 0, 8/(12h), -1/(12h)`). -/
theorem estimators_agree_uniform_grid (t y : List ℚ) (h : ℚ) (hh : 0 < h)
    (hsp : ∀ j, j < t.length - 1 → t.getD (j+1) 0 - t.getD j 0 = h)
    (i : ℕ) (h2 : 2 ≤ i) (hn : i < t.length - 2) :
    (non_uniform_derivative t y).getD i none = (uniform_derivative t y).getD i none := by
  rw [non_uniform_derivative_getD t y i h2 hn, uniform_derivative_getD t y i h2 hn]
  congr 1
  obtain ⟨g1, g2, g3, g4⟩ := window_of_constant_gap t h hsp i h2 hn
  unfold nonUniformStencil uniformStencil
  rw [g1, g2, g3, g4]
  rw [nonUniformWeighted_uniform_spacing _ _ _ _ _ _ _ (ne_of_gt hh)]
  ring

/-- Witness for C4 at `t = [0,1,2,3,4]`, `y = [0,1,4,9,16]`, `h = 1`, `i = 2`. -/
theorem estimators_agree_uniform_grid_witness :
    ((0:ℚ) < 1 ∧ (∀ j, j < wlist5.length - 1 → wlist5.getD (j+1) 0 - wlist5.getD j 0 = 1) ∧
      2 ≤ 2 ∧ 2 < wlist5.length - 2) ∧
    (non_uniform_derivative wlist5 [0, 1, 4, 9, 16]).getD 2 none =
      (uniform_derivative wlist5 [0, 1, 4, 9, 16]).getD 2 none :=
  ⟨⟨by norm_num,
    by
      intro j hj
      have hj4 : j < 4 := by simpa [wlist5] using hj
      interval_cases j <;> norm_num [wlist5],
    by norm_num, by decide⟩,
    estimators_agree_uniform_grid wlist5 [0, 1, 4, 9, 16] 1 (by norm_num)
      (by
        intro j hj
        have hj4 : j < 4 := by simpa [wlist5] using hj
        interval_cases j <;> norm_num [wlist5])
      2 (by norm_num) (by decide)⟩

/-- C10: under strictly increasing `t`, every divisor used by the two
estimators at an interior row is nonzero: the local gap (and `12·dt`), every
pairwise difference among the five window abscissas, and the five
Lagrange-weight denominators. -/
theorem stencil_denominators_nonzero (t : List ℚ) (hinc : StrictIncr t) (i : ℕ)
    (h2 : 2 ≤ i) (hn : i < t.length - 2) :
    (∀ j, j < 5 → ∀ l, l < 5 → j ≠ l →
      t.getD (i-2+j) 0 - t.getD (i-2+l) 0 ≠ 0) ∧
    12 * (t.getD (i+1) 0 - t.getD i 0) ≠ 0 ∧
    den_cefm2 (t.getD (i-2) 0) (t.getD (i-1) 0) (t.getD i 0) (t.getD (i+1) 0) (t.getD (i+2) 0)
      ≠ 0 ∧
    den_cefm1 (t.getD (i-2) 0) (t.getD (i-1) 0) (t.getD i 0) (t.getD (i+1) 0) (t.getD (i+2) 0)
      ≠ 0 ∧
    den_cefp0 (t.getD (i-2) 0) (t.getD (i-1) 0) (t.getD i 0) (t.getD (i+1) 0) (t.getD (i+2) 0)
      ≠ 0 ∧
    den_cefp1 (t.getD (i-2) 0) (t.getD (i-1) 0) (t.getD i 0) (t.getD (i+1) 0) (t.getD (i+2) 0)
      ≠ 0 ∧
    den_cefp2 (t.getD (i-2) 0) (t.getD (i-1) 0) (t.getD i 0) (t.getD (i+1) 0) (t.getD (i+2) 0)
      ≠ 0 := by
  have key : ∀ p q, p < q → q < t.length → t.getD p 0 - t.getD q 0 ≠ 0 :=
    fun p q hpq hq => hinc.getD_ne t p q hpq hq
  have key' : ∀ p q, p < q → q < t.length → t.getD q 0 - t.getD p 0 ≠ 0 :=
    fun p q hpq hq => sub_ne_zero_of_ne (ne_of_gt (hinc q hq p hpq))
  refine ⟨?_, ?_, ?_, ?_, ?_, ?_, ?_⟩
  · intro j hj l hl hjl
    rcases Nat.lt_or_ge j l with hlt | hge
    · exact key (i-2+j) (i-2+l) (by omega) (by omega)
    · exact key' (i-2+l) (i-2+j) (by omega) (by omega)
  · exact mul_ne_zero (by norm_num) (key' i (i+1) (by omega) (by omega))
  · exact mul_ne_zero (mul_ne_zero (mul_ne_zero
      (key (i-2) (i-1) (by omega) (by omega)) (key (i-2) i (by omega) (by omega)))
      (key (i-2) (i+1) (by omega) (by omega))) (key (i-2) (i+2) (by omega) (by omega))
  · exact mul_ne_zero (mul_ne_zero (mul_ne_zero
      (key' (i-2) (i-1) (by omega) (by omega)) (key (i-1) i (by omega) (by omega)))
      (key (i-1) (i+1) (by omega) (by omega))) (key (i-1) (i+2) (by omega) (by omega))
  · exact mul_ne_zero (mul_ne_zero (mul_ne_zero
      (key' (i-2) i (by omega) (by omega)) (key' (i-1) i (by omega) (by omega)))
      (key i (i+1) (by omega) (by omega))) (key i (i+2) (by omega) (by omega))
  · exact mul_ne_zero (mul_ne_zero (mul_ne_zero
      (key' (i-2) (i+1) (by omega) (by omega)) (key' (i-1) (i+1) (by omega) (by omega)))
      (key' i (i+1) (by omega) (by omega))) (key (i+1) (i+2) (by omega) (by omega))
  · exact mul_ne_zero (mul_ne_zero (mul_ne_zero
      (key' (i-2) (i+2) (by omega) (by omega)) (key' (i-1) (i+2) (by omega) (by omega)))
      (key' i (i+2) (by omega) (by omega))) (key' (i+1) (i+2) (by omega) (by omega))

/-- Witness for C10 at `t = [0,1,2,3,4]`, `i = 2`. -/
theorem stencil_denominators_nonzero_witness :
    (StrictIncr wlist5 ∧ 2 ≤ 2 ∧ 2 < wlist5.length - 2) ∧
    ((∀ j, j < 5 → ∀ l, l < 5 → j ≠ l →
      wlist5.getD (2-2+j) 0 - wlist5.getD (2-2+l) 0 ≠ 0) ∧
    12 * (wlist5.getD 3 0 - wlist5.getD 2 0) ≠ 0 ∧
    den_cefm2 (wlist5.getD 0 0) (wlist5.getD 1 0) (wlist5.getD 2 0) (wlist5.getD 3 0)
      (wlist5.getD 4 0) ≠ 0 ∧
    den_cefm1 (wlist5.getD 0 0) (wlist5.getD 1 0) (wlist5.getD 2 0) (wlist5.getD 3 0)
      (wlist5.getD 4 0) ≠ 0 ∧
    den_cefp0 (wlist5.getD 0 0) (wlist5.getD 1 0) (wlist5.getD 2 0) (wlist5.getD 3 0)
      (wlist5.getD 4 0) ≠ 0 ∧
    den_cefp1 (wlist5.getD 0 0) (wlist5.getD 1 0) (wlist5.getD 2 0) (wlist5.getD 3 0)
      (wlist5.getD 4 0) ≠ 0 ∧
    den_cefp2 (wlist5.getD 0 0) (wlist5.getD 1 0) (wlist5.getD 2 0) (wlist5.getD 3 0)
      (wlist5.getD 4 0) ≠ 0) :=
  ⟨⟨by decide, by norm_num, by decide⟩,
    stencil_denominators_nonzero wlist5 (by decide) 2 (by norm_num) (by decide)⟩

/-- C7: the augmentation preserves the 21 original columns unchanged (hence
row count and row order), and yields exactly 27 = 21 + 6 columns, the six
new derivative columns having the input's row count. -/
theorem calc_entropy_balance_frame (df : HistoryTable) (flag : Bool) :
    (_calc_entropy_balance df flag).toHistoryTable = df ∧
    inputColumnNames.length = 21 ∧
    (inputColumnNames ++ derivColumnNames).length = 27 ∧
    (∀ c ∈ (_calc_entropy_balance df flag).derivCols, c.length = df.t.length) := by
  refine ⟨by cases flag <;> rfl, by decide, by decide, ?_⟩
  intro c hc
  cases flag
  · simp only [_calc_entropy_balance, Bool.false_eq_true, if_false, AugTable.derivCols,
      List.mem_cons, List.not_mem_nil, or_false] at hc
    rcases hc with rfl | rfl | rfl | rfl | rfl | rfl <;> exact uniform_derivative_length df.t _
  · simp only [_calc_entropy_balance, if_true, AugTable.derivCols,
      List.mem_cons, List.not_mem_nil, or_false] at hc
    rcases hc with rfl | rfl | rfl | rfl | rfl | rfl <;>
      exact non_uniform_derivative_length df.t _

/-- In either estimator mode, every derivative column satisfies the boundary
sentinel characterization. -/
theorem derivCols_getD_none_iff (df : HistoryTable) (flag : Bool) :
    ∀ c ∈ (_calc_entropy_balance df flag).derivCols, ∀ i,
      (c.getD i none = none ↔ ¬(2 ≤ i ∧ i < df.t.length - 2)) := by
  intro c hc i
  cases flag
  · simp only [_calc_entropy_balance, Bool.false_eq_true, if_false, AugTable.derivCols,
      List.mem_cons, List.not_mem_nil, or_false] at hc
    rcases hc with rfl | rfl | rfl | rfl | rfl | rfl <;>
      exact uniform_derivative_getD_none_iff df.t _ i
  · simp only [_calc_entropy_balance, if_true, AugTable.derivCols,
      List.mem_cons, List.not_mem_nil, or_false] at hc
    rcases hc with rfl | rfl | rfl | rfl | rfl | rfl <;>
      exact non_uniform_derivative_getD_none_iff df.t _ i

/-- C2: with fewer than 5 rows every derivative entry is the sentinel (and
the serializer prints the string `'NaN'` in all six derivative fields of
every row); with `n ≥ 5` rows the sentinel occupies exactly rows
`{0, 1, n-2, n-1}` of every derivative column, under either estimator. -/
theorem derivative_sentinel_rows (df : HistoryTable) (flag : Bool)
    (hwf : df.WF) (hinc : StrictIncr df.t) :
    (df.t.length < 5 →
      (∀ c ∈ (_calc_entropy_balance df flag).derivCols, ∀ i, i < df.t.length →
        c.getD i none = none) ∧
      (∀ i, i < df.t.length → ∀ k, 1 ≤ k → k ≤ 6 →
        ((_save_entropy_balance (_calc_entropy_balance df flag)).rows.getD i []).getD k
          (Field.num 0) = Field.nanStr)) ∧
    (5 ≤ df.t.length →
      ∀ c ∈ (_calc_entropy_balance df flag).derivCols, ∀ i, i < df.t.length →
        (c.getD i none = none ↔
          (i = 0 ∨ i = 1 ∨ i = df.t.length - 2 ∨ i = df.t.length - 1))) := by
  have ht : (_calc_entropy_balance df flag).t = df.t := by cases flag <;> rfl
  refine ⟨fun h5 => ⟨?_, ?_⟩, fun h5 c hc i hi => ?_⟩
  · intro c hc i hi
    rw [derivCols_getD_none_iff df flag c hc i]
    omega
  · intro i hi k hk1 hk6
    simp only [_save_entropy_balance, ht]
    rw [getD_map_range, if_pos hi, if_pos (by omega)]
    interval_cases k <;> rfl
  · rw [derivCols_getD_none_iff df flag c hc i]
    omega

/-- Witness for C2 on the 5-row table (non-uniform estimator). -/
theorem derivative_sentinel_rows_witness :
    (witTable5.WF ∧ StrictIncr witTable5.t) ∧
    ((witTable5.t.length < 5 →
      (∀ c ∈ (_calc_entropy_balance witTable5 true).derivCols, ∀ i, i < witTable5.t.length →
        c.getD i none = none) ∧
      (∀ i, i < witTable5.t.length → ∀ k, 1 ≤ k → k ≤ 6 →
        ((_save_entropy_balance (_calc_entropy_balance witTable5 true)).rows.getD i []).getD k
          (Field.num 0) = Field.nanStr)) ∧
    (5 ≤ witTable5.t.length →
      ∀ c ∈ (_calc_entropy_balance witTable5 true).derivCols, ∀ i, i < witTable5.t.length →
        (c.getD i none = none ↔
          (i = 0 ∨ i = 1 ∨ i = witTable5.t.length - 2 ∨ i = witTable5.t.length - 1)))) :=
  ⟨⟨by decide, by decide⟩,
    derivative_sentinel_rows witTable5 true (by decide) (by decide)⟩

set_option maxRecDepth 100000 in
/-- C6: the serialized artifact is one header line — the 21 column names
each right-justified to 17 characters (so 357 characters in all) — then one
line per input row with 21 fields in the order `t`, the six derivative
columns, then the 14 remaining physical columns in their original order;
sentinel rows (`i < 2` or `i ≥ n-2`) carry the string `'NaN'` in the six
derivative fields, which the string format renders right-justified in a
17-character field. -/
theorem save_entropy_balance_format (df : AugTable) :
    ((_save_entropy_balance df).header = String.join (headerCols.map rjust17) ∧
     headerCols.length = 21 ∧
     (∀ s ∈ headerCols, (rjust17 s).length = 17) ∧
     (_save_entropy_balance df).header.length = 357) ∧
    ((_save_entropy_balance df).rows.length = df.t.length ∧
     (∀ i, i < df.t.length → ((_save_entropy_balance df).rows.getD i []).length = 21)) ∧
    (∀ i, i < df.t.length →
      (_save_entropy_balance df).rows.getD i [] =
        (if i < 2 ∨ df.t.length - 2 ≤ i then
          [Field.num (df.t.getD i 0), Field.nanStr, Field.nanStr, Field.nanStr, Field.nanStr,
           Field.nanStr, Field.nanStr]
         else
          [Field.num (df.t.getD i 0),
           Field.ofOpt (df.dSsdt_nz.getD i none), Field.ofOpt (df.dSsdt_zf.getD i none),
           Field.ofOpt (df.dWEdt_nz.getD i none), Field.ofOpt (df.dWEdt_zf.getD i none),
           Field.ofOpt (df.dWMdt_nz.getD i none), Field.ofOpt (df.dWMdt_zf.getD i none)]) ++
        [Field.num (df.RE_nz.getD i 0), Field.num (df.RE_zf.getD i 0),
         Field.num (df.RM_nz.getD i 0), Field.num (df.RM_zf.getD i 0),
         Field.num (df.NE_nz.getD i 0), Field.num (df.NE_zf.getD i 0),
         Field.num (df.NM_nz.getD i 0), Field.num (df.NM_zf.getD i 0),
         Field.num (df.Ds_nz.getD i 0), Field.num (df.Ds_zf.getD i 0),
         Field.num (df.GE.getD i 0), Field.num (df.GM.getD i 0),
         Field.num (df.QE.getD i 0), Field.num (df.QM.getD i 0)]) ∧
    (renderStrCell "NaN" = "              NaN" ∧ (renderStrCell "NaN").length = 17) := by
  refine ⟨⟨rfl, by decide, by decide,
    by show (String.join (headerCols.map rjust17)).length = 357; decide⟩,
    ⟨?_, ?_⟩, ?_, by decide, by decide⟩
  · simp [_save_entropy_balance]
  · intro i hi
    simp only [_save_entropy_balance]
    rw [getD_map_range, if_pos hi]
    by_cases hc : i < 2 ∨ df.t.length - 2 ≤ i
    · rw [if_pos hc]; rfl
    · rw [if_neg hc]; rfl
  · intro i hi
    simp only [_save_entropy_balance]
    rw [getD_map_range, if_pos hi]
    by_cases hc : i < 2 ∨ df.t.length - 2 ≤ i
    · rw [if_pos hc, if_pos hc]; rfl
    · rw [if_neg hc, if_neg hc]; rfl

/-- C5 as stated is false: on the strictly increasing but non-uniformly
spaced 9-row ramp table `C5table` (slope 1), the uniform estimator at row 2
returns `1/2`, not the exact slope `1` — it divides by `12·(t[3]-t[2])`
while the stencil actually spans gaps of very different sizes. -/
theorem claimC5_counterexample : ¬ claimC5 := by
  intro hcl
  have h := hcl C5table (fun _ => 1) (fun _ => 0) (by decide) (by decide) (by decide)
    (by
      intro k hk i hi
      rw [one_mul, add_zero]
      interval_cases k <;> rfl)
    false
  have h4 := h.2.2.2 0 (by norm_num) 2 (by norm_num) (by norm_num)
  rw [show (_calc_entropy_balance C5table false).derivCols.getD 0 [] =
      uniform_derivative C5table.t C5table.Ss_nz from rfl] at h4
  rw [uniform_derivative_getD _ _ 2 (by norm_num) (by decide)] at h4
  have hval : uniformStencil C5table.t C5table.Ss_nz 2 = 1/2 := by
    show uniformStencil cexList9 cexList9 2 = 1/2
    unfold uniformStencil cexList9
    norm_num [List.getD]
  rw [hval] at h4
  exact absurd (Option.some.inj h4) (by norm_num)

/-- C5 (amended): for every 9-row table with strictly increasing time and
linear-ramp source columns, the output has 27 columns and 9 rows and rows
`{0,1,7,8}` are the sentinel under both estimators; rows 2–6 are exactly the
ramp slope under the NON-uniform estimator on any such grid, and under the
uniform estimator when the grid additionally has a constant positive gap. -/
theorem entropy_balance_linear_ramp (df : HistoryTable) (a b : ℕ → ℚ)
    (hwf : df.WF) (h9 : df.t.length = 9) (hinc : StrictIncr df.t)
    (hramp : RampTable df a b) :
    (∀ flag : Bool,
      (inputColumnNames ++ derivColumnNames).length = 27 ∧
      (∀ c ∈ (_calc_entropy_balance df flag).derivCols, c.length = 9) ∧
      (∀ c ∈ (_calc_entropy_balance df flag).derivCols, ∀ i,
        (i = 0 ∨ i = 1 ∨ i = 7 ∨ i = 8) → c.getD i none = none)) ∧
    (∀ k, k < 6 → ∀ i, 2 ≤ i → i ≤ 6 →
      ((_calc_entropy_balance df true).derivCols.getD k []).getD i none = some (a k)) ∧
    (∀ h : ℚ, 0 < h → (∀ j, j < df.t.length - 1 → df.t.getD (j+1) 0 - df.t.getD j 0 = h) →
      ∀ k, k < 6 → ∀ i, 2 ≤ i → i ≤ 6 →
        ((_calc_entropy_balance df false).derivCols.getD k []).getD i none = some (a k)) := by
  refine ⟨fun flag => ⟨by decide, ?_, ?_⟩, ?_, ?_⟩
  · intro c hc
    rw [(calc_entropy_balance_frame df flag).2.2.2 c hc, h9]
  · intro c hc i hi
    rw [derivCols_getD_none_iff df flag c hc i, h9]
    omega
  · intro k hk i h2 h6
    interval_cases k
    · exact non_uniform_derivative_ramp df.t df.Ss_nz (a 0) (b 0) hinc
        (fun j hj => hramp 0 (by norm_num) j hj) i h2 (by omega)
    · exact non_uniform_derivative_ramp df.t df.Ss_zf (a 1) (b 1) hinc
        (fun j hj => hramp 1 (by norm_num) j hj) i h2 (by omega)
    · exact non_uniform_derivative_ramp df.t df.WE_nz (a 2) (b 2) hinc
        (fun j hj => hramp 2 (by norm_num) j hj) i h2 (by omega)
    · exact non_uniform_derivative_ramp df.t df.WE_zf (a 3) (b 3) hinc
        (fun j hj => hramp 3 (by norm_num) j hj) i h2 (by omega)
    · exact non_uniform_derivative_ramp df.t df.WM_nz (a 4) (b 4) hinc
        (fun j hj => hramp 4 (by norm_num) j hj) i h2 (by omega)
    · exact non_uniform_derivative_ramp df.t df.WM_zf (a 5) (b 5) hinc
        (fun j hj => hramp 5 (by norm_num) j hj) i h2 (by omega)
  · intro h hh hsp k hk i h2 h6
    interval_cases k
    · exact uniform_derivative_ramp_uniform_grid df.t df.Ss_nz (a 0) (b 0) h hh hsp
        (fun j hj => hramp 0 (by norm_num) j hj) i h2 (by omega)
    · exact uniform_derivative_ramp_uniform_grid df.t df.Ss_zf (a 1) (b 1) h hh hsp
        (fun j hj => hramp 1 (by norm_num) j hj) i h2 (by omega)
    · exact uniform_derivative_ramp_uniform_grid df.t df.WE_nz (a 2) (b 2) h hh hsp
        (fun j hj => hramp 2 (by norm_num) j hj) i h2 (by omega)
    · exact uniform_derivative_ramp_uniform_grid df.t df.WE_zf (a 3) (b 3) h hh hsp
        (fun j hj => hramp 3 (by norm_num) j hj) i h2 (by omega)
    · exact uniform_derivative_ramp_uniform_grid df.t df.WM_nz (a 4) (b 4) h hh hsp
        (fun j hj => hramp 4 (by norm_num) j hj) i h2 (by omega)
    · exact uniform_derivative_ramp_uniform_grid df.t df.WM_zf (a 5) (b 5) h hh hsp
        (fun j hj => hramp 5 (by norm_num) j hj) i h2 (by omega)

/-- Witness for the amended C5 on the concrete non-uniform ramp table. -/
theorem entropy_balance_linear_ramp_witness :
    (C5table.WF ∧ C5table.t.length = 9 ∧ StrictIncr C5table.t ∧
      RampTable C5table (fun _ => 1) (fun _ => 0)) ∧
    ((∀ flag : Bool,
      (inputColumnNames ++ derivColumnNames).length = 27 ∧
      (∀ c ∈ (_calc_entropy_balance C5table flag).derivCols, c.length = 9) ∧
      (∀ c ∈ (_calc_entropy_balance C5table flag).derivCols, ∀ i,
        (i = 0 ∨ i = 1 ∨ i = 7 ∨ i = 8) → c.getD i none = none)) ∧
    (∀ k, k < 6 → ∀ i, 2 ≤ i → i ≤ 6 →
      ((_calc_entropy_balance C5table true).derivCols.getD k []).getD i none =
        some ((fun _ => (1:ℚ)) k)) ∧
    (∀ h : ℚ, 0 < h →
      (∀ j, j < C5table.t.length - 1 → C5table.t.getD (j+1) 0 - C5table.t.getD j 0 = h) →
      ∀ k, k < 6 → ∀ i, 2 ≤ i → i ≤ 6 →
        ((_calc_entropy_balance C5table false).derivCols.getD k []).getD i none =
          some ((fun _ => (1:ℚ)) k))) :=
  ⟨⟨by decide, by decide, by decide,
    by
      intro k hk i hi
      rw [one_mul, add_zero]
      interval_cases k <;> rfl⟩,
    entropy_balance_linear_ramp C5table (fun _ => 1) (fun _ => 0) (by decide) (by decide)
      (by decide)
      (by
        intro k hk i hi
        rw [one_mul, add_zero]
        interval_cases k <;> rfl)⟩

/-- C8: if any of the four required input paths is absent, `gkvfigpdf`
raises `FileNotFoundError` with an empty effect trace (no output directory
or artifact created); the CLI exits 2 printing usage when the directory
argument is omitted, exits 1 when `gkvfigpdf` raises, and exits 0 when it
succeeds. -/
theorem pipeline_validation (p : GkvPaths) (rest : List String × Option String)
    (hmiss : p.dirIsDir = false ∨ p.hstIsDir = false ∨ p.logIsFile = false ∨
      p.namelistIsFile = false) :
    ((gkvfigpdf p rest).1 = [] ∧ (gkvfigpdf p rest).2.isSome = true) ∧
    main none rest = (2, true) ∧
    main (some p) rest = (1, false) ∧
    (∀ q rest2, (gkvfigpdf q rest2).2 = none → main (some q) rest2 = (0, false)) := by
  have herr : (gkvfigpdf p rest).1 = [] ∧ (gkvfigpdf p rest).2.isSome = true := by
    unfold gkvfigpdf
    rcases hmiss with h | h | h | h <;> split_ifs <;> simp_all
  refine ⟨herr, rfl, ?_, ?_⟩
  · obtain ⟨msg, hmsg⟩ := Option.isSome_iff_exists.mp herr.2
    simp only [main, hmsg]
  · intro q rest2 h0
    simp only [main, h0]

/-- Witness for C8: the output directory itself is absent. -/
theorem pipeline_validation_witness :
    ((⟨false, true, true, true⟩ : GkvPaths).dirIsDir = false ∨
      (⟨false, true, true, true⟩ : GkvPaths).hstIsDir = false ∨
      (⟨false, true, true, true⟩ : GkvPaths).logIsFile = false ∨
      (⟨false, true, true, true⟩ : GkvPaths).namelistIsFile = false) ∧
    (((gkvfigpdf ⟨false, true, true, true⟩ ([], none)).1 = [] ∧
      (gkvfigpdf ⟨false, true, true, true⟩ ([], none)).2.isSome = true) ∧
    main none ([], none) = (2, true) ∧
    main (some ⟨false, true, true, true⟩) ([], none) = (1, false) ∧
    (∀ q rest2, (gkvfigpdf q rest2).2 = none → main (some q) rest2 = (0, false))) :=
  ⟨Or.inl rfl, pipeline_validation ⟨false, true, true, true⟩ ([], none) (Or.inl rfl)⟩

/-- After one line, the `nprocs` slot is set iff it was set or this line is
a matching `nprocs`/`rank` line. -/
theorem parseStep_fst (st : Option ℕ × Option ℕ × Option (List Char)) (line : List Char) :
    ((parseStep st line).1).isSome = (st.1.isSome || nprocsLineHit line) := by
  unfold parseStep nprocsLineHit
  cases hb : containsSub "nprocs".toList line && containsSub "rank".toList line
  · simp only [hb, Bool.false_and, Bool.or_false, Bool.false_eq_true, if_false]
    split_ifs
    · cases hsg : searchSome globalNyAt line <;> simp
    · cases hsc : searchSome calcTypeAt line <;> simp
    · rfl
  · simp only [hb, Bool.true_and, if_true]
    cases hs : searchSome nprocsAt line <;> simp [hs]

/-- After one line, the `global_ny` slot is set iff it was set or this line
is a matching `global_ny` line. -/
theorem parseStep_snd1 (st : Option ℕ × Option ℕ × Option (List Char)) (line : List Char) :
    ((parseStep st line).2.1).isSome = (st.2.1.isSome || globalNyLineHit line) := by
  unfold parseStep globalNyLineHit
  cases hb : containsSub "nprocs".toList line && containsSub "rank".toList line
  · simp only [hb, Bool.not_false, Bool.true_and, Bool.false_eq_true, if_false]
    cases hg : containsSub "global_ny".toList line
    · simp only [hg, Bool.false_and, Bool.or_false, Bool.false_eq_true, if_false]
      split_ifs
      · cases hsc : searchSome calcTypeAt line <;> simp
      · rfl
    · simp only [hg, Bool.true_and, if_true]
      cases hsg : searchSome globalNyAt line <;> simp [hsg]
  · simp only [hb, Bool.not_true, Bool.false_and, Bool.or_false, if_true]
    cases hs : searchSome nprocsAt line <;> simp

/-- After one line, the `calc_type` slot is set iff it was set or this line
is a matching `Type of calc.` line. -/
theorem parseStep_snd2 (st : Option ℕ × Option ℕ × Option (List Char)) (line : List Char) :
    ((parseStep st line).2.2).isSome = (st.2.2.isSome || calcTypeLineHit line) := by
  unfold parseStep calcTypeLineHit
  cases hb : containsSub "nprocs".toList line && containsSub "rank".toList line
  · simp only [hb, Bool.not_false, Bool.true_and, Bool.false_eq_true, if_false]
    cases hg : containsSub "global_ny".toList line
    · simp only [hg, Bool.not_false, Bool.true_and, Bool.false_eq_true, if_false]
      cases hc : containsSub "Type of calc".toList line
      · simp only [hc, Bool.false_and, Bool.or_false, Bool.false_eq_true, if_false]
      · simp only [hc, Bool.true_and, if_true]
        cases hsc : searchSome calcTypeAt line <;> simp [hsc]
    · simp only [hg, Bool.not_true, Bool.false_and, Bool.and_false, Bool.or_false, if_true]
      cases hsg : searchSome globalNyAt line <;> simp
  · simp only [hb, Bool.not_true, Bool.false_and, Bool.and_false, Bool.or_false, if_true]
    cases hs : searchSome nprocsAt line <;> simp

theorem foldl_parseStep_fst (lines : List (List Char)) :
    ∀ st, (((lines.foldl parseStep st).1).isSome = (st.1.isSome || lines.any nprocsLineHit)) := by
  induction lines with
  | nil => intro st; simp
  | cons l ls ih =>
    intro st
    simp only [List.foldl_cons, List.any_cons]
    rw [ih, parseStep_fst, Bool.or_assoc]

theorem foldl_parseStep_snd1 (lines : List (List Char)) :
    ∀ st, (((lines.foldl parseStep st).2.1).isSome =
      (st.2.1.isSome || lines.any globalNyLineHit)) := by
  induction lines with
  | nil => intro st; simp
  | cons l ls ih =>
    intro st
    simp only [List.foldl_cons, List.any_cons]
    rw [ih, parseStep_snd1, Bool.or_assoc]

theorem foldl_parseStep_snd2 (lines : List (List Char)) :
    ∀ st, (((lines.foldl parseStep st).2.2).isSome =
      (st.2.2.isSome || lines.any calcTypeLineHit)) := by
  induction lines with
  | nil => intro st; simp
  | cons l ls ih =>
    intro st
    simp only [List.foldl_cons, List.any_cons]
    rw [ih, parseStep_snd2, Bool.or_assoc]

/-- C9: `parse_parameters` returns a triple iff each of the three markers is
matched by at least one line (otherwise it raises — `Except.error` — never a
partial result, by the shape of the return type). -/
theorem parse_parameters_ok_iff (lines : List (List Char)) :
    (∃ v, parse_parameters lines = .ok v) ↔
      ((∃ l ∈ lines, nprocsLineHit l = true) ∧ (∃ l ∈ lines, globalNyLineHit l = true) ∧
       (∃ l ∈ lines, calcTypeLineHit l = true)) := by
  have h1 := foldl_parseStep_fst lines (none, none, none)
  have h2 := foldl_parseStep_snd1 lines (none, none, none)
  have h3 := foldl_parseStep_snd2 lines (none, none, none)
  rw [← List.any_eq_true, ← List.any_eq_true, ← List.any_eq_true, ← Bool.false_or
    (lines.any nprocsLineHit), ← Bool.false_or (lines.any globalNyLineHit),
    ← Bool.false_or (lines.any calcTypeLineHit)]
  unfold parse_parameters
  rcases hres : lines.foldl parseStep (none, none, none) with ⟨np, gy, ct⟩
  rw [hres] at h1 h2 h3
  simp only [Option.isSome_none] at h1 h2 h3
  rw [← h1, ← h2, ← h3]
  cases np <;> cases gy <;> cases ct <;> simp

end GkvFigPdf
